import Mathlib

/-!
Shallow embedding of the safety core of the Red control plane
(world state machine, approval token service, uncertainty gate,
drift detector, guarded executor), translated from the Python
sources under `app/`, together with proofs of the spec's claims.
-/

namespace Red

/-- A small universe of Python primitive values, used for scope
arguments and world-entity dictionary values. -/
inductive PyVal where
  | none : PyVal
  | bool : Bool → PyVal
  | int : Int → PyVal
  | str : String → PyVal
deriving DecidableEq, Repr

/-- Python `repr` of a primitive value, as used by
`_canonical_payload` for `repr(s.args[k])`.  String escaping is the
identity here: the embedding only handles values whose text contains
no quote or backslash characters, which covers all inputs exercised
by the claims. -/
def pyRepr : PyVal → String
  | .none => "None"
  | .bool true => "True"
  | .bool false => "False"
  | .int n => toString n
  | .str s => "\x27" ++ s ++ "\x27"

/-- Python `str` of a primitive value. -/
def pyStr : PyVal → String
  | .none => "None"
  | .bool true => "True"
  | .bool false => "False"
  | .int n => toString n
  | .str s => s

/-- Python truthiness of a primitive value. -/
def pyTruthy : PyVal → Bool
  | .none => false
  | .bool b => b
  | .int n => n != 0
  | .str s => s != ""

/-- Python `a or b` on values: `a` when truthy, else `b`. -/
def pyOr (a b : PyVal) : PyVal :=
  if pyTruthy a then a else b

/-- Python `str.strip()`: remove leading and trailing whitespace. -/
def pyStrip (s : String) : String :=
  String.mk (((s.data.dropWhile Char.isWhitespace).reverse.dropWhile Char.isWhitespace).reverse)

/-- Python `int(v)` with a surrounding `try/except` that yields 0 on
failure, as in `_fingerprint_entities`.  `int` of a string parses an
optionally signed decimal (whitespace stripped); anything else
raises, which the caller turns into 0. -/
def pyToIntOr0 : PyVal → Int
  | .int n => n
  | .bool b => if b then 1 else 0
  | .str s => ((pyStrip s).toInt?).getD 0
  | .none => 0

/-! ## World state machine (`app/world_state.py`) -/

/-- `WorldState` enumeration. -/
inductive WorldState where
  | DISARMED : WorldState
  | ARMED_IDLE : WorldState
  | ARMED_ACTIVE : WorldState
  | FROZEN : WorldState
  | ENDED : WorldState
deriving DecidableEq, Repr

/-- The `.value` string of a `WorldState` member. -/
def WorldState.value : WorldState → String
  | .DISARMED => "DISARMED"
  | .ARMED_IDLE => "ARMED_IDLE"
  | .ARMED_ACTIVE => "ARMED_ACTIVE"
  | .FROZEN => "FROZEN"
  | .ENDED => "ENDED"

/-- `TERMINAL`: states from which no further transitions happen
without the terminal override. -/
def TERMINAL : List WorldState := [.ENDED]

/-- `ALLOWED_TRANSITIONS` table of World Engine 1. -/
def ALLOWED_TRANSITIONS : WorldState → List WorldState
  | .DISARMED => [.ARMED_IDLE, .FROZEN, .ENDED]
  | .ARMED_IDLE => [.ARMED_ACTIVE, .DISARMED, .FROZEN, .ENDED]
  | .ARMED_ACTIVE => [.ARMED_IDLE, .DISARMED, .FROZEN, .ENDED]
  | .FROZEN => [.DISARMED, .ENDED]
  | .ENDED => []

/-- `WorldStateSnapshot` dataclass: the persisted current-state row. -/
structure WorldStateSnapshot where
  state : WorldState
  reason : String
  updated_at : String
  updated_by : String
deriving DecidableEq, Repr

/-- `world_state_events` row appended on each successful transition. -/
structure StateTransitionEvent where
  from_state : String
  to_state : String
  reason : String
  actor : String
  created_at : String
  trace_id : Option String
deriving DecidableEq, Repr

/-- `WorldStateStore.can_execute`: only ARMED_IDLE and ARMED_ACTIVE
allow execution. -/
def canExecute (snap : WorldStateSnapshot) : Bool × String :=
  if snap.state = .ARMED_IDLE ∨ snap.state = .ARMED_ACTIVE then
    (true, "execution allowed: state=" ++ snap.state.value)
  else
    (false, "execution blocked: state=" ++ snap.state.value ++ " reason=" ++ snap.reason)

/-- `reason = (reason or "").strip() or "no reason provided"`. -/
def normalizeReason (reason : String) : String :=
  if pyStrip reason = "" then "no reason provided" else pyStrip reason

/-- Outcome of one `WorldStateStore.set_state` call: the persisted
row after the call, the snapshot returned to the caller, whether the
UPDATE ran, and the appended event if any. -/
structure SetStateResult where
  stored : WorldStateSnapshot
  returned : WorldStateSnapshot
  wrote : Bool
  event : Option StateTransitionEvent
deriving DecidableEq, Repr

/-- `WorldStateStore.set_state`, as a pure transform of the persisted
snapshot.  `now` stands for `utc_now_iso()`. -/
def setState (cur : WorldStateSnapshot) (new_state : WorldState)
    (reason actor : String) (trace_id : Option String) (now : String)
    (allow_terminal_override allow_illegal_transition : Bool) : SetStateResult :=
  let reason := normalizeReason reason
  if cur.state ∈ TERMINAL ∧ allow_terminal_override = false then
    ⟨cur, cur, false, Option.none⟩
  else if allow_illegal_transition = false ∧
      new_state ∉ ALLOWED_TRANSITIONS cur.state ∧ new_state ≠ cur.state then
    ⟨cur,
     { state := cur.state,
       reason := "DENIED transition " ++ cur.state.value ++ " -> " ++
         new_state.value ++ ": " ++ reason,
       updated_at := cur.updated_at,
       updated_by := cur.updated_by },
     false, Option.none⟩
  else
    let snap : WorldStateSnapshot := ⟨new_state, reason, now, actor⟩
    ⟨snap, snap, true,
     Option.some ⟨cur.state.value, new_state.value, reason, actor, now, trace_id⟩⟩

/-- One call in a sequence of transitions (terminal override fixed to
false, matching the spec's "non-override transitions"). -/
structure TransitionCall where
  target : WorldState
  reason : String
  actor : String
  trace_id : Option String
  now : String
  allow_illegal_transition : Bool
deriving DecidableEq, Repr

/-- The persisted snapshot after running a sequence of `set_state`
calls without the terminal override. -/
def runTransitions (start : WorldStateSnapshot) (calls : List TransitionCall) :
    WorldStateSnapshot :=
  calls.foldl
    (fun snap c =>
      (setState snap c.target c.reason c.actor c.trace_id c.now false
        c.allow_illegal_transition).stored)
    start

/-! ## Uncertainty gate (`app/governance/uncertainty_gate.py`,
`app/governance/assumptions.py`, `app/types/core.py`) -/

/-- `AssumptionStatus` enumeration. -/
inductive AssumptionStatus where
  | VALID : AssumptionStatus
  | VIOLATED : AssumptionStatus
  | UNKNOWN : AssumptionStatus
deriving DecidableEq, Repr

/-- `Assumption` dataclass. -/
structure Assumption where
  key : String
  expected_value : PyVal
  description : String
  status : AssumptionStatus
  last_checked_ms : Option Int
deriving DecidableEq, Repr

/-- `Confidence` dataclass.  Scores are modelled as rationals; the
source stores Python floats, and the comparisons and `min` the gate
performs agree with the rational ones on the (non-NaN) values used. -/
structure Confidence where
  score : ℚ
  rationale : String
deriving DecidableEq, Repr

/-- `GateDecision` dataclass. -/
structure GateDecision where
  allowed : Bool
  reason : String
  confidence : Confidence
deriving DecidableEq, Repr

/-- Python `str` of a list of strings, as produced by the f-string
`f"assumptions violated: \x7b[a.key for a in violated]\x7d"`. -/
def pyStrList (ks : List String) : String :=
  "[" ++ String.intercalate ", " (ks.map fun k => "\x27" ++ k ++ "\x27") ++ "]"

/-- `UncertaintyGate.decide`. -/
def UncertaintyGate.decide (assumptions : List Assumption) (confidence : Confidence)
    (min_confidence : ℚ) : GateDecision :=
  let violated := assumptions.filter fun a => a.status = .VIOLATED
  if violated ≠ [] then
    { allowed := false,
      reason := "assumptions violated: " ++ pyStrList (violated.map (·.key)),
      confidence :=
        { score := min confidence.score 0.4,
          rationale := "world drift violated plan assumptions" } }
  else if confidence.score < min_confidence then
    { allowed := false, reason := "confidence below threshold", confidence := confidence }
  else
    { allowed := true, reason := "uncertainty gate passed", confidence := confidence }

/-! ## Approval token service (`app/approvals.py`, `app/approval_schema.py`)

The HMAC-SHA256-over-secret step and ISO-8601 timestamp parsing are
abstracted as function parameters `mac : String → String` (from
canonical payload to base64url signature) and
`parse : String → Option Int` (from `expires_at` text to an instant);
everything else is translated from the source. -/

/-- `ActionScope` model.  `args` is a Python dict, modelled as an
association list; callers keep keys sorted so that Python's
order-insensitive dict equality coincides with list equality. -/
structure ActionScope where
  runner_id : String
  action : String
  args : List (String × PyVal)
  human_summary : Option String
  risk : String
deriving DecidableEq, Repr

/-- `ApprovalToken` model.  `status` is one of `"PENDING"`,
`"CONSUMED"`, `"EXPIRED"`, `"REVOKED"`. -/
structure ApprovalToken where
  token_id : String
  issued_at : String
  expires_at : String
  nonce : String
  proposal_id : String
  scopes : List ActionScope
  alg : String
  signature : String
  status : String
deriving DecidableEq, Repr

/-- The `scope[i].*` lines of `_canonical_payload` for one scope. -/
def canonicalScopeParts (i : Nat) (s : ActionScope) : List String :=
  ["scope[" ++ toString i ++ "].runner_id=" ++ s.runner_id,
   "scope[" ++ toString i ++ "].action=" ++ s.action]
  ++ ((s.args.map Prod.fst).mergeSort (fun a b => a ≤ b)).map
      (fun k => "scope[" ++ toString i ++ "].args." ++ k ++ "=" ++
        pyRepr ((s.args.lookup k).getD .none))
  ++ ["scope[" ++ toString i ++ "].risk=" ++ s.risk]

/-- `_canonical_payload`: the canonical bytes that get signed.  The
signature and status fields are not part of the payload. -/
def canonicalPayload (token : ApprovalToken) : String :=
  String.intercalate "\n"
    (["token_id=" ++ token.token_id,
      "nonce=" ++ token.nonce,
      "issued_at=" ++ token.issued_at,
      "expires_at=" ++ token.expires_at,
      "proposal_id=" ++ token.proposal_id]
     ++ (token.scopes.enum.map fun p => canonicalScopeParts p.1 p.2).flatten)

/-- `_sign`: the message authentication code over the canonical
payload, with the keyed HMAC abstracted as `mac`. -/
def signToken (mac : String → String) (token : ApprovalToken) : String :=
  mac (canonicalPayload token)

/-- `_is_expired`: unparseable `expires_at` counts as expired,
otherwise expired iff `now >= expires_at`. -/
def isExpired (parse : String → Option Int) (now : Int) (token : ApprovalToken) : Bool :=
  match parse token.expires_at with
  | Option.none => true
  | Option.some exp => now ≥ exp

/-- The in-memory `_STORE`, keyed by token id. -/
def Store : Type := String → Option ApprovalToken

/-- `_STORE[id] = t`. -/
def storeSet (st : Store) (id : String) (t : ApprovalToken) : Store :=
  fun k => if k = id then Option.some t else st k

/-- `_STORE.get(id)`. -/
def storeGet (st : Store) (id : String) : Option ApprovalToken := st id

/-- `request_approval`, with the generated identifiers and timestamps
supplied as arguments.  The token is signed over its canonical
payload (which excludes the signature field) and stored `PENDING`. -/
def request_approval (mac : String → String) (token_id issued_at expires_at nonce : String)
    (proposal_id : String) (scopes : List ActionScope) (st : Store) :
    ApprovalToken × Store :=
  let token0 : ApprovalToken :=
    ⟨token_id, issued_at, expires_at, nonce, proposal_id, scopes, "HMAC-SHA256", "", "PENDING"⟩
  let token := { token0 with signature := signToken mac token0 }
  (token, storeSet st token_id token)

/-- `ApprovalVerifyRequest`. -/
structure ApprovalVerifyRequest where
  token : ApprovalToken
  expected_scope : Option ActionScope
deriving DecidableEq, Repr

/-- `ApprovalVerifyResponse`. -/
structure ApprovalVerifyResponse where
  ok : Bool
  status : String
  reason : String
  expires_at : Option String
deriving DecidableEq, Repr

/-- `verify_approval`.  `hmac.compare_digest` is a constant-time
string comparison; in the embedding it is equality of the two
strings. -/
def verify_approval (mac : String → String) (parse : String → Option Int) (now : Int)
    (st : Store) (vreq : ApprovalVerifyRequest) : ApprovalVerifyResponse × Store :=
  let token := vreq.token
  match storeGet st token.token_id with
  | Option.none => (⟨false, "INVALID", "Unknown token_id", Option.none⟩, st)
  | Option.some stored =>
    let expected_sig := signToken mac token
    if expected_sig ≠ token.signature then
      (⟨false, "INVALID", "Signature mismatch", Option.none⟩, st)
    else if token.nonce ≠ stored.nonce ∨ token.expires_at ≠ stored.expires_at ∨
        token.issued_at ≠ stored.issued_at then
      (⟨false, "INVALID", "Token fields do not match issued record", Option.none⟩, st)
    else if isExpired parse now stored then
      (⟨false, "EXPIRED", "Token expired", Option.some stored.expires_at⟩,
       storeSet st stored.token_id { stored with status := "EXPIRED" })
    else if stored.status ≠ "PENDING" then
      (⟨false, stored.status, "Token not pending: " ++ stored.status,
        Option.some stored.expires_at⟩, st)
    else
      match vreq.expected_scope with
      | Option.some esc =>
        if stored.scopes.any (fun s =>
            s.runner_id = esc.runner_id ∧ s.action = esc.action ∧ s.args = esc.args) then
          (⟨true, "PENDING", "Token valid and pending", Option.some stored.expires_at⟩, st)
        else
          (⟨false, "INVALID", "Token does not cover expected scope",
            Option.some stored.expires_at⟩, st)
      | Option.none =>
        (⟨true, "PENDING", "Token valid and pending", Option.some stored.expires_at⟩, st)

/-- `ApprovalConsumeRequest`. -/
structure ApprovalConsumeRequest where
  token_id : String
  nonce : String
deriving DecidableEq, Repr

/-- `ApprovalConsumeResponse`. -/
structure ApprovalConsumeResponse where
  ok : Bool
  status : String
  reason : String
deriving DecidableEq, Repr

/-- `consume_approval`: single-use enforcement. -/
def consume_approval (parse : String → Option Int) (now : Int)
    (st : Store) (creq : ApprovalConsumeRequest) : ApprovalConsumeResponse × Store :=
  match storeGet st creq.token_id with
  | Option.none => (⟨false, "NOT_FOUND", "Unknown token_id"⟩, st)
  | Option.some stored =>
    if stored.nonce ≠ creq.nonce then
      (⟨false, "REVOKED", "Nonce mismatch (treat as invalid/revoked)"⟩, st)
    else if isExpired parse now stored then
      (⟨false, "EXPIRED", "Token expired"⟩,
       storeSet st stored.token_id { stored with status := "EXPIRED" })
    else if stored.status ≠ "PENDING" then
      (⟨false, stored.status, "Token not pending: " ++ stored.status⟩, st)
    else
      (⟨true, "CONSUMED", "Token consumed (single-use)"⟩,
       storeSet st stored.token_id { stored with status := "CONSUMED" })

/-! ## Drift detector (`app/world/drift.py`)

Entities arrive from `WorldStore.list_entities`; `_as_entity_dict`
turns each into a dict, modelled here directly as an association
list of field name to value.  SHA-256 hex digesting is abstracted as
a function parameter `hashHex : String → String`. -/

/-- A world entity after `_as_entity_dict`: a Python dict. -/
def EntityDict : Type := List (String × PyVal)

/-- Python `d.get(k)` (default `None`). -/
def dGet (d : EntityDict) (k : String) : PyVal :=
  (d.lookup k).getD .none

/-- One row of the fingerprint input: `\x7b"id": str(...), "u": int(...)\x7d`. -/
def rowOfEntity (d : EntityDict) : String × Int :=
  let entity_id := pyOr (pyOr (pyOr (dGet d "entity_id") (dGet d "id")) (dGet d "uid"))
    (.str "unknown")
  let updated := pyOr (pyOr (pyOr (pyOr (dGet d "updated_at_ms") (dGet d "updated_at"))
    (dGet d "ts_ms")) (dGet d "created_at_ms")) (.int 0)
  (pyStr entity_id, pyToIntOr0 updated)

/-- `json.dumps` of one sorted row dict with compact separators:
keys `"id"` then `"u"`. -/
def rowJson (r : String × Int) : String :=
  "\x7b\"id\":\"" ++ r.1 ++ "\",\"u\":" ++ toString r.2 ++ "\x7d"

/-- `rows.sort(key=lambda r: (r["id"], r["u"]))`: ascending
lexicographic order on the (id, u) pair. -/
def sortRows (rows : List (String × Int)) : List (String × Int) :=
  rows.mergeSort fun a b => a.1 < b.1 ∨ (a.1 = b.1 ∧ a.2 ≤ b.2)

/-- `_fingerprint_entities`: rows, sorted, serialized, hashed, first
12 hex characters. -/
def fingerprintEntities (hashHex : String → String) (ents : List EntityDict) : String :=
  let rows := sortRows (ents.map rowOfEntity)
  let blob := "[" ++ String.intercalate "," (rows.map rowJson) ++ "]"
  (hashHex blob).take 12

/-- `DriftEvent` model. -/
structure DriftEvent where
  kind : String
  ts_ms : Int
  prev_fingerprint : Option String
  fingerprint : String
  detail : List (String × String)
deriving DecidableEq, Repr

/-- The mutable fields of a `DriftDetector`. -/
structure DriftState where
  last_fingerprint : Option String
  last_ts : Option Int
deriving DecidableEq, Repr

/-- The dict returned by `DriftDetector.compute`. -/
structure DriftResult where
  ok : Bool
  fingerprint : String
  drift_events : List DriftEvent
  count : Nat
deriving DecidableEq, Repr

/-- `DriftDetector.compute`.  `ents` is what `store.list_entities`
returned (or `[]` if it raised); `now` stands for `now_ms()`.  Every
internal failure path in the source is caught, so the model is a
total function — the call never raises. -/
def DriftDetector.compute (hashHex : String → String) (ents : List EntityDict)
    (s : DriftState) (now : Int) : DriftResult × DriftState :=
  let fp := fingerprintEntities hashHex ents
  match s.last_fingerprint with
  | Option.none =>
    (⟨true, fp, [], 0⟩, ⟨Option.some fp, Option.some now⟩)
  | Option.some last =>
    if fp ≠ last then
      let ev : DriftEvent :=
        ⟨"world_drift_fingerprint_changed", now, Option.some last, fp,
         [("from", last), ("to", fp)]⟩
      (⟨true, fp, [ev], 1⟩, ⟨Option.some fp, Option.some now⟩)
    else
      (⟨true, fp, [], 0⟩, s)

/-! ## Guarded executor -/

/-- `Receipt` of one execution attempt. -/
structure Receipt where
  receipt_id : String
  trace_id : String
  step_id : String
  ok : Bool
  started_at : Int
  finished_at : Int
  output : Option PyVal
  error : Option String
deriving DecidableEq, Repr

/-- Result of `GuardedExecutor.execute`. -/
structure ExecOutcome where
  executed : Bool
  receipt : Receipt
deriving DecidableEq, Repr

/-- Modelled from the spec: the `GuardedExecutor` with signature
`execute(action, gate_decision, trace_id, approval_token?,
absolute_override)` is missing from the repository — only a scaffold
with a different signature (`ExecutorEngine.execute(plan, ctx)`,
aliased to `GuardedExecutor`) and its smoke-test callers
(`_smoke_test_executor_blocked.py`, `_smoke_test_executor_override.py`)
are present.  Following §4.6 of the spec: if the gate denies and no
absolute override is given, return a blocked receipt without invoking
the action; otherwise invoke the action, catching any failure into
the receipt.  The action is an opaque fallible callable; generated
receipt ids and timestamps are passed in. -/
def GuardedExecutor.execute (action : Unit → Except String PyVal)
    (gate_decision : GateDecision) (trace_id : String)
    (_approval_token : Option ApprovalToken) (absolute_override : Bool)
    (receipt_id step_id : String) (started_at finished_at : Int) : ExecOutcome :=
  if gate_decision.allowed = false ∧ absolute_override = false then
    ⟨false,
     ⟨receipt_id, trace_id, step_id, false, started_at, finished_at, Option.none,
      Option.some ("Execution blocked: " ++ gate_decision.reason)⟩⟩
  else
    match action () with
    | Except.ok out =>
      ⟨true, ⟨receipt_id, trace_id, step_id, true, started_at, finished_at,
        Option.some out, Option.none⟩⟩
    | Except.error msg =>
      ⟨true, ⟨receipt_id, trace_id, step_id, false, started_at, finished_at,
        Option.none, Option.some msg⟩⟩

/-! ## Concrete fixtures used by counterexamples and witnesses -/

/-- A concrete MAC: constant, so any token self-signs to `"MACVALUE"`. -/
def exMac : String → String := fun _ => "MACVALUE"

/-- A concrete timestamp parser for fixtures: unsigned decimal text. -/
def exParse (s : String) : Option Int :=
  if s.data ≠ [] ∧ s.data.all Char.isDigit then
    Option.some (Int.ofNat (s.data.foldl (fun n c => 10 * n + (c.toNat - 48)) 0))
  else
    Option.none

/-- A concrete action scope. -/
def exScope : ActionScope := ⟨"x", "run_cmd", [], Option.none, "medium"⟩

/-- A concrete issued token: signed under `exMac`, pending, expiring
at instant 100 (timestamps parse with `String.toInt?`). -/
def exToken : ApprovalToken :=
  ⟨"id1", "10", "100", "n1", "p1", [exScope], "HMAC-SHA256", "MACVALUE", "PENDING"⟩

/-- A store holding exactly `exToken`. -/
def exStore : Store := storeSet (fun _ => Option.none) "id1" exToken

/-- A concrete world snapshot in `DISARMED`. -/
def exSnapDisarmed : WorldStateSnapshot := ⟨.DISARMED, "boot default", "t0", "system"⟩

/-- A concrete world snapshot in `ENDED`. -/
def exSnapEnded : WorldStateSnapshot := ⟨.ENDED, "done", "t0", "system"⟩

/-! ## Theorems -/

/-- `set_state` from a terminal state without the terminal override
returns the current snapshot unchanged and writes nothing. -/
theorem setState_terminal_noop (cur : WorldStateSnapshot) (ns : WorldState)
    (reason actor : String) (tr : Option String) (now : String) (ill : Bool)
    (h : cur.state = .ENDED) :
    setState cur ns reason actor tr now false ill = ⟨cur, cur, false, Option.none⟩ := by
  unfold setState
  rw [if_pos]
  exact ⟨by rw [h]; simp [TERMINAL], rfl⟩

/-- C9: `can_execute` returns `true` exactly when the current world
state is `ARMED_IDLE` or `ARMED_ACTIVE`, and `false` otherwise. -/
theorem can_execute_iff_armed (snap : WorldStateSnapshot) :
    (canExecute snap).1 = true ↔
      (snap.state = WorldState.ARMED_IDLE ∨ snap.state = WorldState.ARMED_ACTIVE) := by
  rcases snap with ⟨s, r, ua, ub⟩
  cases s <;> simp [canExecute]

/-- C5: `ENDED` is absorbing: any sequence of `set_state` calls
without the terminal override, starting from an `ENDED` snapshot,
leaves the persisted snapshot exactly as it was; and each individual
such call returns the current snapshot unchanged without writing. -/
theorem ended_absorbing (start : WorldStateSnapshot) (calls : List TransitionCall)
    (h : start.state = .ENDED) :
    runTransitions start calls = start ∧
    (∀ (cur : WorldStateSnapshot) (c : TransitionCall), cur.state = .ENDED →
      setState cur c.target c.reason c.actor c.trace_id c.now false
          c.allow_illegal_transition = ⟨cur, cur, false, Option.none⟩) := by
  refine ⟨?_, fun cur c hcur => setState_terminal_noop _ _ _ _ _ _ _ hcur⟩
  induction calls generalizing start with
  | nil => rfl
  | cons c rest ih =>
    have hstep := setState_terminal_noop start c.target c.reason c.actor c.trace_id c.now
      c.allow_illegal_transition h
    unfold runTransitions
    simp only [List.foldl_cons, hstep]
    exact ih start h

/-- C5 witness: a concrete override-style illegal transition attempt
out of `ENDED` (terminal override not set) leaves the snapshot as it
was. -/
theorem ended_absorbing_witness :
    runTransitions exSnapEnded
        [⟨.DISARMED, "revive", "user", Option.none, "t1", true⟩,
         ⟨.ARMED_ACTIVE, "go", "user", Option.none, "t2", false⟩] = exSnapEnded :=
  (ended_absorbing exSnapEnded
    [⟨.DISARMED, "revive", "user", Option.none, "t1", true⟩,
     ⟨.ARMED_ACTIVE, "go", "user", Option.none, "t2", false⟩] rfl).1

/-- C4 counterexample: with an override flag set (the terminal
override), the transition `DISARMED -> ARMED_ACTIVE` is still denied:
nothing is written, the stored snapshot is unchanged, and the
returned reason carries the `DENIED transition` prefix — refuting
"the persisted state changes iff t ∈ allowed(s), or t = s, or an
override flag is set". -/
theorem set_state_override_counterexample :
    (setState exSnapDisarmed .ARMED_ACTIVE "go" "user" Option.none "t1" true false).wrote
        = false ∧
    (setState exSnapDisarmed .ARMED_ACTIVE "go" "user" Option.none "t1" true false).stored
        = exSnapDisarmed ∧
    (setState exSnapDisarmed .ARMED_ACTIVE "go" "user" Option.none "t1" true false).returned.reason
        = "DENIED transition DISARMED -> ARMED_ACTIVE: go" := by
  decide

/-- C4 (amended): when the current state is terminal and the terminal
override is not set, `set_state` returns the current snapshot
unchanged (no write, no `DENIED` prefix); otherwise the persisted
snapshot is written iff the target is in the allowed-transition set,
or equals the current state, or the illegal-transition override is
set; when it is not written, the stored snapshot is unchanged and the
returned snapshot keeps the current state with a reason prefixed
`"DENIED transition <from> -> <to>: <reason>"`, delivered as an
ordinary return value. -/
theorem set_state_transition_rule (cur : WorldStateSnapshot) (ns : WorldState)
    (reason actor : String) (tr : Option String) (now : String) (tov ill : Bool) :
    (cur.state ∈ TERMINAL ∧ tov = false →
      setState cur ns reason actor tr now tov ill = ⟨cur, cur, false, Option.none⟩) ∧
    (¬ (cur.state ∈ TERMINAL ∧ tov = false) →
      ((setState cur ns reason actor tr now tov ill).wrote = true ↔
        (ns ∈ ALLOWED_TRANSITIONS cur.state ∨ ns = cur.state ∨ ill = true)) ∧
      ((setState cur ns reason actor tr now tov ill).wrote = false →
        (setState cur ns reason actor tr now tov ill).stored = cur ∧
        (setState cur ns reason actor tr now tov ill).returned.state = cur.state ∧
        (setState cur ns reason actor tr now tov ill).returned.reason =
          "DENIED transition " ++ cur.state.value ++ " -> " ++ ns.value ++ ": " ++
            normalizeReason reason)) := by
  constructor
  · intro h
    unfold setState
    rw [if_pos h]
  · intro h
    unfold setState
    rw [if_neg h]
    by_cases h2 : ill = false ∧ ns ∉ ALLOWED_TRANSITIONS cur.state ∧ ns ≠ cur.state
    · rw [if_pos h2]
      obtain ⟨hill, hmem, hne⟩ := h2
      constructor
      · constructor
        · intro hf
          exact absurd (show (false : Bool) = true from hf) (by simp)
        · intro hdisj
          exfalso
          rcases hdisj with hd | hd | hd
          · exact hmem hd
          · exact hne hd
          · rw [hill] at hd; exact Bool.noConfusion hd
      · intro _
        exact ⟨rfl, rfl, rfl⟩
    · rw [if_neg h2]
      have hd : ns ∈ ALLOWED_TRANSITIONS cur.state ∨ ns = cur.state ∨ ill = true := by
        by_contra hcon
        push_neg at hcon
        obtain ⟨hmem, hne, hill⟩ := hcon
        refine h2 ⟨?_, hmem, hne⟩
        revert hill
        cases ill <;> simp
      constructor
      · exact ⟨fun _ => hd, fun _ => rfl⟩
      · intro hf
        exact absurd (show (true : Bool) = false from hf) (by simp)

/-- C4 (amended) witness: a legal transition writes; an illegal one
without overrides does not and reports the denial. -/
theorem set_state_transition_rule_witness :
    (setState exSnapDisarmed .ARMED_IDLE "go" "user" Option.none "t1" false false).wrote
        = true ∧
    (setState exSnapDisarmed .ARMED_ACTIVE "go" "user" Option.none "t1" false false).stored
        = exSnapDisarmed :=
  ⟨((set_state_transition_rule exSnapDisarmed .ARMED_IDLE "go" "user" Option.none "t1"
        false false).2 (by decide)).1.mpr (Or.inl (by decide)),
   (((set_state_transition_rule exSnapDisarmed .ARMED_ACTIVE "go" "user" Option.none "t1"
        false false).2 (by decide)).2 (by decide)).1⟩

/-- C2 counterexample: the outcome of `verify_approval` depends on
the caller-supplied signature.  Presenting the stored token verbatim
verifies ok; presenting it with only the signature field altered is
rejected with `Signature mismatch` — so verify does not recompute
over the stored token and compare against the stored signature
independently of the caller's signature. -/
theorem verify_depends_on_caller_signature :
    (verify_approval exMac exParse 50 exStore
        ⟨{ exToken with signature := "x" }, Option.none⟩).1 ≠
    (verify_approval exMac exParse 50 exStore ⟨exToken, Option.none⟩).1 := by
  decide

/-- C2 (amended): `verify_approval` recomputes the signature over the
*caller-supplied* token's canonical bytes and compares it (with a
constant-time comparison, modelled as equality) against the
*caller-supplied* signature; beyond that it uses the caller token
only to look up the id and to check `nonce`/`expires_at`/`issued_at`
equality against the stored record — once those checks pass, the
outcome is determined by the stored record (and the expected scope)
alone. -/
theorem verify_caller_signature_then_stored (mac : String → String)
    (parse : String → Option Int) (now : Int) (st : Store) (S : ApprovalToken) :
    (∀ T esc, storeGet st T.token_id = Option.some S →
      signToken mac T ≠ T.signature →
      verify_approval mac parse now st ⟨T, esc⟩ =
        (⟨false, "INVALID", "Signature mismatch", Option.none⟩, st)) ∧
    (∀ T₁ T₂ esc,
      storeGet st T₁.token_id = Option.some S →
      storeGet st T₂.token_id = Option.some S →
      signToken mac T₁ = T₁.signature →
      signToken mac T₂ = T₂.signature →
      T₁.nonce = S.nonce → T₁.expires_at = S.expires_at → T₁.issued_at = S.issued_at →
      T₂.nonce = S.nonce → T₂.expires_at = S.expires_at → T₂.issued_at = S.issued_at →
      verify_approval mac parse now st ⟨T₁, esc⟩ =
        verify_approval mac parse now st ⟨T₂, esc⟩) := by
  constructor
  · intro T esc hS hsig
    unfold verify_approval
    dsimp only
    rw [hS]
    dsimp only
    rw [if_pos hsig]
  · intro T₁ T₂ esc hS₁ hS₂ hsig₁ hsig₂ hn₁ he₁ hi₁ hn₂ he₂ hi₂
    unfold verify_approval
    dsimp only
    rw [hS₁, hS₂]
    simp only [hsig₁, hsig₂, hn₁, he₁, hi₁, hn₂, he₂, hi₂, ne_eq, not_true_eq_false,
      if_false, or_self, ite_false]

/-- C2 (amended) witness: tampering only with the signature of the
stored token yields the signature-mismatch rejection, store
unchanged. -/
theorem verify_caller_signature_then_stored_witness :
    verify_approval exMac exParse 50 exStore
        ⟨{ exToken with signature := "x" }, Option.none⟩ =
      (⟨false, "INVALID", "Signature mismatch", Option.none⟩, exStore) :=
  (verify_caller_signature_then_stored exMac exParse 50 exStore exToken).1
    { exToken with signature := "x" } Option.none (by decide) (by decide)

/-- C3: for a stored pending (issued) token, the first consume before
expiry returns ok with status `CONSUMED` and sets the stored status
to `CONSUMED`; and every consume performed while the stored status is
no longer `PENDING` (i.e. every subsequent consume) returns ok=false
whose status equals the token's stored status as of after the call,
which itself is never `PENDING` again. -/
theorem consume_single_use (parse : String → Option Int) (now : Int) (st : Store)
    (id : String) (S : ApprovalToken)
    (hS : storeGet st id = Option.some S) (hid : S.token_id = id)
    (hpend : S.status = "PENDING") (hexp : isExpired parse now S = false) :
    (consume_approval parse now st ⟨id, S.nonce⟩).1 =
      ⟨true, "CONSUMED", "Token consumed (single-use)"⟩ ∧
    storeGet (consume_approval parse now st ⟨id, S.nonce⟩).2 id =
      Option.some { S with status := "CONSUMED" } ∧
    (∀ (now₂ : Int) (st' : Store) (S' : ApprovalToken),
      storeGet st' id = Option.some S' → S'.token_id = id → S'.nonce = S.nonce →
      S'.status ≠ "PENDING" →
      (consume_approval parse now₂ st' ⟨id, S.nonce⟩).1.ok = false ∧
      Option.map ApprovalToken.status
          (storeGet (consume_approval parse now₂ st' ⟨id, S.nonce⟩).2 id) =
        Option.some (consume_approval parse now₂ st' ⟨id, S.nonce⟩).1.status ∧
      (consume_approval parse now₂ st' ⟨id, S.nonce⟩).1.status ≠ "PENDING") := by
  have hfirst : consume_approval parse now st ⟨id, S.nonce⟩ =
      (⟨true, "CONSUMED", "Token consumed (single-use)"⟩,
       storeSet st S.token_id { S with status := "CONSUMED" }) := by
    unfold consume_approval
    rw [hS]
    simp only [ne_eq, not_true_eq_false, if_false, hexp, Bool.false_eq_true, hpend,
      not_false_eq_true, if_true, ite_false]
  refine ⟨by rw [hfirst], ?_, ?_⟩
  · rw [hfirst, hid]
    simp [storeGet, storeSet]
  · intro now₂ st' S' hS' hid' hn' hnp'
    unfold consume_approval
    rw [hS']
    dsimp only
    rw [hn']
    rw [if_neg (show ¬ S.nonce ≠ S.nonce by simp)]
    by_cases hx : isExpired parse now₂ S' = true
    · rw [if_pos hx]
      dsimp only
      rw [hid']
      refine ⟨rfl, ?_, by decide⟩
      simp [storeGet, storeSet]
    · rw [if_neg hx, if_pos hnp']
      dsimp only
      rw [show storeGet st' id = Option.some S' from hS']
      exact ⟨rfl, rfl, hnp'⟩

/-- C3 witness: consuming the fixture token once succeeds; consuming
it again reports `CONSUMED`. -/
theorem consume_single_use_witness :
    (consume_approval exParse 50 exStore ⟨"id1", exToken.nonce⟩).1 =
      ⟨true, "CONSUMED", "Token consumed (single-use)"⟩ :=
  (consume_single_use exParse 50 exStore "id1" exToken (by decide) (by decide)
    (by decide) (by decide)).1

/-- C6: presenting a stored, genuinely signed token whose
`expires_at` has passed (`now >= expires_at`): verify returns
ok=false with status `EXPIRED` and rewrites the stored status to
`EXPIRED`; consuming the same token id afterwards also reports
`EXPIRED`, not `NOT_FOUND`. -/
theorem verify_then_consume_expired (mac : String → String)
    (parse : String → Option Int) (now exp : Int) (st : Store) (S : ApprovalToken)
    (hS : storeGet st S.token_id = Option.some S)
    (hsig : S.signature = signToken mac S)
    (hparse : parse S.expires_at = Option.some exp) (hnow : now ≥ exp) :
    (verify_approval mac parse now st ⟨S, Option.none⟩).1 =
      ⟨false, "EXPIRED", "Token expired", Option.some S.expires_at⟩ ∧
    storeGet (verify_approval mac parse now st ⟨S, Option.none⟩).2 S.token_id =
      Option.some { S with status := "EXPIRED" } ∧
    (consume_approval parse now (verify_approval mac parse now st ⟨S, Option.none⟩).2
        ⟨S.token_id, S.nonce⟩).1 = ⟨false, "EXPIRED", "Token expired"⟩ := by
  have hxp : isExpired parse now S = true := by
    unfold isExpired
    rw [hparse]
    simpa using hnow
  have hver : verify_approval mac parse now st ⟨S, Option.none⟩ =
      (⟨false, "EXPIRED", "Token expired", Option.some S.expires_at⟩,
       storeSet st S.token_id { S with status := "EXPIRED" }) := by
    unfold verify_approval
    dsimp only
    rw [hS]
    dsimp only
    rw [if_neg (show ¬ signToken mac S ≠ S.signature by simp [hsig])]
    rw [if_neg (show ¬ (S.nonce ≠ S.nonce ∨ S.expires_at ≠ S.expires_at ∨
      S.issued_at ≠ S.issued_at) by simp)]
    rw [if_pos hxp]
  have hget : storeGet (storeSet st S.token_id { S with status := "EXPIRED" })
      S.token_id = Option.some { S with status := "EXPIRED" } := by
    simp [storeGet, storeSet]
  refine ⟨by rw [hver], by rw [hver]; exact hget, ?_⟩
  rw [hver]
  unfold consume_approval
  dsimp only
  rw [hget]
  dsimp only
  rw [if_neg (show ¬ S.nonce ≠ S.nonce by simp)]
  have hxp' : isExpired parse now { S with status := "EXPIRED" } = true := by
    unfold isExpired
    rw [show ({ S with status := "EXPIRED" } : ApprovalToken).expires_at = S.expires_at
      from rfl, hparse]
    simpa using hnow
  rw [if_pos hxp']

/-- C6 witness: the fixture token at `now = 150` (past its expiry
100) verifies as expired and then consumes as expired. -/
theorem verify_then_consume_expired_witness :
    (verify_approval exMac exParse 150 exStore ⟨exToken, Option.none⟩).1 =
      ⟨false, "EXPIRED", "Token expired", Option.some exToken.expires_at⟩ ∧
    (consume_approval exParse 150
        (verify_approval exMac exParse 150 exStore ⟨exToken, Option.none⟩).2
        ⟨exToken.token_id, exToken.nonce⟩).1 = ⟨false, "EXPIRED", "Token expired"⟩ :=
  ⟨(verify_then_consume_expired exMac exParse 150 100 exStore exToken (by decide)
      (by decide) (by decide) (by decide)).1,
   (verify_then_consume_expired exMac exParse 150 100 exStore exToken (by decide)
      (by decide) (by decide) (by decide)).2.2⟩

/-- C10: a consume request whose token id resolves to a stored token
but whose nonce differs from the stored nonce is rejected with
ok=false and status `REVOKED`, and the store — hence the stored
token's status — is left completely unchanged. -/
theorem consume_nonce_mismatch (parse : String → Option Int) (now : Int) (st : Store)
    (creq : ApprovalConsumeRequest) (S : ApprovalToken)
    (hS : storeGet st creq.token_id = Option.some S) (hn : S.nonce ≠ creq.nonce) :
    consume_approval parse now st creq =
      (⟨false, "REVOKED", "Nonce mismatch (treat as invalid/revoked)"⟩, st) := by
  unfold consume_approval
  rw [hS]
  dsimp only
  rw [if_pos hn]

/-- C10 witness: consuming the fixture token with a wrong nonce is
`REVOKED` and leaves the store as it was. -/
theorem consume_nonce_mismatch_witness :
    consume_approval exParse 50 exStore ⟨"id1", "bad"⟩ =
      (⟨false, "REVOKED", "Nonce mismatch (treat as invalid/revoked)"⟩, exStore) :=
  consume_nonce_mismatch exParse 50 exStore ⟨"id1", "bad"⟩ exToken (by decide) (by decide)

/-- C7: the uncertainty gate denies, with a reason listing the
violated assumption keys and the confidence clamped to at most 0.4
with rationale "world drift violated plan assumptions", whenever any
assumption is violated — regardless of the confidence, so a violated
assumption dominates low confidence in the reason; with no violation
it denies with "confidence below threshold" and the confidence
unchanged when the score is below the threshold, and otherwise allows
with "uncertainty gate passed". -/
theorem uncertainty_gate_decide_spec (assumptions : List Assumption)
    (confidence : Confidence) (min_confidence : ℚ) :
    (assumptions.filter (fun a => a.status = .VIOLATED) ≠ [] →
      UncertaintyGate.decide assumptions confidence min_confidence =
        ⟨false,
         "assumptions violated: " ++
           pyStrList ((assumptions.filter (fun a => a.status = .VIOLATED)).map (·.key)),
         ⟨min confidence.score 0.4, "world drift violated plan assumptions"⟩⟩ ∧
      (UncertaintyGate.decide assumptions confidence min_confidence).confidence.score
        ≤ 0.4) ∧
    (assumptions.filter (fun a => a.status = .VIOLATED) = [] →
      confidence.score < min_confidence →
      UncertaintyGate.decide assumptions confidence min_confidence =
        ⟨false, "confidence below threshold", confidence⟩) ∧
    (assumptions.filter (fun a => a.status = .VIOLATED) = [] →
      ¬ confidence.score < min_confidence →
      UncertaintyGate.decide assumptions confidence min_confidence =
        ⟨true, "uncertainty gate passed", confidence⟩) := by
  refine ⟨fun hv => ⟨?_, ?_⟩, fun hv hc => ?_, fun hv hc => ?_⟩
  · unfold UncertaintyGate.decide
    rw [if_pos hv]
  · unfold UncertaintyGate.decide
    rw [if_pos hv]
    exact min_le_right _ _
  · unfold UncertaintyGate.decide
    rw [if_neg (by simpa using hv), if_pos hc]
  · unfold UncertaintyGate.decide
    rw [if_neg (by simpa using hv), if_neg hc]

/-- C7 witness: one violated assumption together with a
below-threshold confidence: the denial names the violated key and the
confidence is clamped. -/
theorem uncertainty_gate_decide_spec_witness :
    UncertaintyGate.decide
        [⟨"system_safe", .bool true, "System must be safe", .VIOLATED, Option.none⟩]
        ⟨0.2, "initial"⟩ 0.6 =
      ⟨false, "assumptions violated: [\x27system_safe\x27]",
       ⟨min (0.2 : ℚ) 0.4, "world drift violated plan assumptions"⟩⟩ :=
  ((uncertainty_gate_decide_spec
      [⟨"system_safe", .bool true, "System must be safe", .VIOLATED, Option.none⟩]
      ⟨0.2, "initial"⟩ 0.6).1 (by decide)).1

/-- C8: on a detector with no baseline, `compute` establishes the
baseline and emits no drift events; a second `compute` over the same
entities produces the identical fingerprint and an empty
`drift_events` list, and both calls return ok (the model of `compute`
is a total function: every internal failure path in the source is
caught). -/
theorem drift_baseline_and_idempotent (hashHex : String → String)
    (ents : List EntityDict) (s₀ : DriftState) (now₁ now₂ : Int)
    (h : s₀.last_fingerprint = Option.none) :
    (DriftDetector.compute hashHex ents s₀ now₁).1.ok = true ∧
    (DriftDetector.compute hashHex ents s₀ now₁).1.drift_events = [] ∧
    (DriftDetector.compute hashHex ents s₀ now₁).2.last_fingerprint =
      Option.some (DriftDetector.compute hashHex ents s₀ now₁).1.fingerprint ∧
    (DriftDetector.compute hashHex ents
        (DriftDetector.compute hashHex ents s₀ now₁).2 now₂).1.fingerprint =
      (DriftDetector.compute hashHex ents s₀ now₁).1.fingerprint ∧
    (DriftDetector.compute hashHex ents
        (DriftDetector.compute hashHex ents s₀ now₁).2 now₂).1.drift_events = [] ∧
    (DriftDetector.compute hashHex ents
        (DriftDetector.compute hashHex ents s₀ now₁).2 now₂).1.ok = true := by
  have h₁ : DriftDetector.compute hashHex ents s₀ now₁ =
      (⟨true, fingerprintEntities hashHex ents, [], 0⟩,
       ⟨Option.some (fingerprintEntities hashHex ents), Option.some now₁⟩) := by
    unfold DriftDetector.compute
    rw [h]
  have h₂ : DriftDetector.compute hashHex ents
      (⟨Option.some (fingerprintEntities hashHex ents), Option.some now₁⟩ : DriftState)
      now₂ =
      (⟨true, fingerprintEntities hashHex ents, [], 0⟩,
       ⟨Option.some (fingerprintEntities hashHex ents), Option.some now₁⟩) := by
    unfold DriftDetector.compute
    dsimp only
    rw [if_neg (show ¬ fingerprintEntities hashHex ents ≠ fingerprintEntities hashHex ents
      by simp)]
  simp [h₁, h₂]

/-- C8 witness: a concrete run over an unchanged world: no events on
the baseline call and none on the repeat call. -/
theorem drift_baseline_and_idempotent_witness :
    (DriftDetector.compute (fun s => s)
        [[("entity_id", .str "e1"), ("updated_at_ms", .int 5)]]
        ⟨Option.none, Option.none⟩ 1).1.drift_events = [] ∧
    (DriftDetector.compute (fun s => s)
        [[("entity_id", .str "e1"), ("updated_at_ms", .int 5)]]
        (DriftDetector.compute (fun s => s)
          [[("entity_id", .str "e1"), ("updated_at_ms", .int 5)]]
          ⟨Option.none, Option.none⟩ 1).2 2).1.drift_events = [] :=
  ⟨(drift_baseline_and_idempotent (fun s => s)
      [[("entity_id", .str "e1"), ("updated_at_ms", .int 5)]]
      ⟨Option.none, Option.none⟩ 1 2 rfl).2.1,
   (drift_baseline_and_idempotent (fun s => s)
      [[("entity_id", .str "e1"), ("updated_at_ms", .int 5)]]
      ⟨Option.none, Option.none⟩ 1 2 rfl).2.2.2.2.1⟩

/-- C1 (against the spec-modelled executor): with a denying gate
decision and no absolute override, `execute` returns the same blocked
outcome for every action (so the action is never invoked), with
executed=false and a receipt whose ok=false and whose error is
`"Execution blocked: <gate.reason>"`; with the absolute override set
it invokes the action regardless of the gate: the outcome has
executed=true and reflects exactly the action's own result. -/
theorem executor_hard_stop (gate : GateDecision)
    (trace_id receipt_id step_id : String) (tok : Option ApprovalToken) (t₁ t₂ : Int)
    (h : gate.allowed = false) :
    (∀ action,
      GuardedExecutor.execute action gate trace_id tok false receipt_id step_id t₁ t₂ =
        ⟨false, ⟨receipt_id, trace_id, step_id, false, t₁, t₂, Option.none,
          Option.some ("Execution blocked: " ++ gate.reason)⟩⟩) ∧
    (∀ action out, action () = Except.ok out →
      GuardedExecutor.execute action gate trace_id tok true receipt_id step_id t₁ t₂ =
        ⟨true, ⟨receipt_id, trace_id, step_id, true, t₁, t₂, Option.some out,
          Option.none⟩⟩) ∧
    (∀ action msg, action () = Except.error msg →
      GuardedExecutor.execute action gate trace_id tok true receipt_id step_id t₁ t₂ =
        ⟨true, ⟨receipt_id, trace_id, step_id, false, t₁, t₂, Option.none,
          Option.some msg⟩⟩) := by
  refine ⟨fun action => ?_, fun action out ha => ?_, fun action msg ha => ?_⟩
  · unfold GuardedExecutor.execute
    rw [if_pos ⟨h, rfl⟩]
  · unfold GuardedExecutor.execute
    rw [if_neg (by simp), ha]
  · unfold GuardedExecutor.execute
    rw [if_neg (by simp), ha]

/-- C1 witness: a concrete denying gate blocks a concrete action and
the override runs it. -/
theorem executor_hard_stop_witness :
    GuardedExecutor.execute (fun _ => Except.ok (.str "executed"))
        ⟨false, "forced test", ⟨0.2, "forced"⟩⟩ "tr" Option.none false "rid" "sid" 0 1 =
      ⟨false, ⟨"rid", "tr", "sid", false, 0, 1, Option.none,
        Option.some "Execution blocked: forced test"⟩⟩ ∧
    GuardedExecutor.execute (fun _ => Except.ok (.str "executed"))
        ⟨false, "forced test", ⟨0.2, "forced"⟩⟩ "tr" Option.none true "rid" "sid" 0 1 =
      ⟨true, ⟨"rid", "tr", "sid", true, 0, 1, Option.some (.str "executed"),
        Option.none⟩⟩ :=
  ⟨(executor_hard_stop ⟨false, "forced test", ⟨0.2, "forced"⟩⟩ "tr" "rid" "sid"
      Option.none 0 1 rfl).1 (fun _ => Except.ok (.str "executed")),
   (executor_hard_stop ⟨false, "forced test", ⟨0.2, "forced"⟩⟩ "tr" "rid" "sid"
      Option.none 0 1 rfl).2.1 (fun _ => Except.ok (.str "executed")) (.str "executed")
      rfl⟩

end Red
